import Mathlib

/-!
Shallow embedding of the panache-backend incident-reporting service
(Express + Supabase), covering the incidents router
(`src/routes/incidents.js`), the users/auth routers (`src/unnamed/part_002`)
and the multer upload configuration.  Database tables are embedded as lists,
the blob store and the password-verification RPC as explicit parameters, and
each Express handler as a pure function from the database state and request
data to the new state plus the HTTP response.
-/

namespace Panache

/-- The authenticated principal attached to a request after token
verification: `req.user` with its `id` and `role`. -/
structure Principal where
  id : Nat
  role : String
deriving Repr, DecidableEq

/-- A row of the `incidents` table.  `created_at` / `updated_at` are modelled
as natural-number timestamps. -/
structure Incident where
  id : Nat
  user_id : Nat
  subject : String
  date_of_incident : String
  project_name : String
  source_of_incident : String
  mistake_committed : String
  preliminary_investigation : Bool
  details_and_findings : String
  suggestions : String
  status : String
  created_at : Nat
  updated_at : Nat
deriving Repr, DecidableEq

/-- A row of the `incident_attachments` table. -/
structure IncidentAttachment where
  incident_id : Nat
  file_url : String
  file_type : String
deriving Repr, DecidableEq

/-- A row of the `incident_responses` table. -/
structure IncidentResponse where
  incident_id : Nat
  investigation_findings : String
  root_cause : String
  action_taken : String
  further_action_plan : String
  acknowledged_by : Nat
deriving Repr, DecidableEq

/-- A row of the `users` table (the columns the auth/users routers read). -/
structure User where
  id : Nat
  username : String
  role : String
  department : String
  is_active : Bool
deriving Repr, DecidableEq

/-- The relational state the routers operate on. -/
structure Db where
  incidents : List Incident
  attachments : List IncidentAttachment
  responses : List IncidentResponse
deriving Repr, DecidableEq

/-- Modelled from the spec: `authorizeRoles` lives in `middleware/auth`,
which is not part of the provided sources.  Spec section 4.1 specifies it as a
pure membership test of the principal's role in the endpoint's allowed-role
list. -/
def authorizeRoles (allowed : List String) (p : Principal) : Bool :=
  allowed.contains p.role

/-! ## Multer upload configuration (`src/routes/incidents.js` lines 9-22) -/

/-- An uploaded file as multer presents it. -/
structure UploadFile where
  originalname : String
  mimetype : String
  size : Nat
deriving Repr, DecidableEq

/-- JavaScript's `String.prototype.startsWith`, embedded over the character
sequence of the strings. -/
def strStartsWith (s pre : String) : Bool :=
  pre.data.isPrefixOf s.data

/-- `fileFilter`: accept images and videos, reject everything else. -/
def fileFilterAccepts (mimetype : String) : Bool :=
  strStartsWith mimetype "image/" || strStartsWith mimetype "video/"

/-- `limits.fileSize`: 10 * 1024 * 1024 bytes. -/
def fileSizeLimit : Nat := 10 * 1024 * 1024

/-- A file passes the multer boundary iff the fileFilter accepts its declared
MIME type and its size does not exceed the configured limit. -/
def uploadAccepts (f : UploadFile) : Bool :=
  fileFilterAccepts f.mimetype && f.size ≤ fileSizeLimit

/-! ## GET / (list incidents, lines 25-50) -/

/-- `.order('created_at', { ascending: false })`: newest first. -/
def sortNewestFirst (l : List Incident) : List Incident :=
  l.mergeSort (fun a b => decide (b.created_at ≤ a.created_at))

/-- The list endpoint: all incidents ordered newest-first; a `user`-role
principal additionally gets the `eq('user_id', req.user.id)` filter. -/
def listIncidents (db : Db) (p : Principal) : List Incident :=
  let sorted := sortNewestFirst db.incidents
  if p.role = "user" then sorted.filter (fun inc => inc.user_id = p.id)
  else sorted

/-! ## GET /:id (single incident, lines 53-93) -/

inductive GetIncidentResult
  | ok (inc : Incident)
  | accessDenied
  | serverError
deriving Repr, DecidableEq

/-- HTTP status the handler responds with in each case:
200 with the incident body, 403 `Access denied`, or 500 `Failed to fetch
incident` (a failed `.single()` fetch is thrown and caught by the generic
handler). -/
def GetIncidentResult.httpStatus : GetIncidentResult → Nat
  | .ok _ => 200
  | .accessDenied => 403
  | .serverError => 500

/-- The detail endpoint: fetch by id with `.single()` (which errors when no
row matches, surfacing as 500), then deny a `user`-role principal that does
not own the incident. -/
def getIncident (db : Db) (p : Principal) (iid : Nat) : GetIncidentResult :=
  match db.incidents.find? (fun inc => inc.id = iid) with
  | none => .serverError
  | some inc =>
    if p.role = "user" && inc.user_id ≠ p.id then .accessDenied
    else .ok inc

/-! ## POST / (create incident, lines 96-172) -/

/-- The multipart form body of the create request.  An absent field and an
empty field are both falsy in the JavaScript check on line 109, so both are
embedded as the empty string. -/
structure CreateBody where
  subject : String
  date_of_incident : String
  project_name : String
  source_of_incident : String
  mistake_committed : String
  preliminary_investigation : String
  details_and_findings : String
  suggestions : String
deriving Repr, DecidableEq

/-- Line 109: `!subject || !date_of_incident || !source_of_incident ||
!mistake_committed || !details_and_findings`. -/
def missingRequired (b : CreateBody) : Bool :=
  b.subject = "" || b.date_of_incident = "" || b.source_of_incident = "" ||
  b.mistake_committed = "" || b.details_and_findings = ""

inductive CreateResult
  | forbidden
  | validationError
  | created (inc : Incident)
deriving Repr, DecidableEq

/-- HTTP status of the create response: 403 from `authorizeRoles`,
400 `Required fields are missing`, or 201 `Incident reported successfully`. -/
def CreateResult.httpStatus : CreateResult → Nat
  | .forbidden => 403
  | .validationError => 400
  | .created _ => 201

/-- Storage key generated on line 137. -/
def attachmentKey (incidentId now : Nat) (f : UploadFile) : String :=
  toString incidentId ++ "/" ++ toString now ++ "-" ++ f.originalname

/-- The attachment row inserted for a successfully stored file
(lines 154-160): `file_url` is the storage path, `file_type` the MIME type. -/
def mkAttachment (incidentId now : Nat) (f : UploadFile) : IncidentAttachment :=
  { incident_id := incidentId
    file_url := attachmentKey incidentId now f
    file_type := f.mimetype }

/-- The create handler.  `uploadOk i` tells whether the blob-store upload of
the i-th file succeeds; on `uploadError` the loop logs and `continue`s, so a
failed file contributes no attachment row.  `newId` is the id the database
assigns to the inserted row and `now` the current timestamp. -/
def createIncident (db : Db) (p : Principal) (body : CreateBody)
    (files : List UploadFile) (uploadOk : Nat → Bool)
    (newId now : Nat) : Db × CreateResult :=
  if ¬ authorizeRoles ["user"] p then (db, .forbidden)
  else if missingRequired body then (db, .validationError)
  else
    let inc : Incident :=
      { id := newId
        user_id := p.id
        subject := body.subject
        date_of_incident := body.date_of_incident
        project_name := body.project_name
        source_of_incident := body.source_of_incident
        mistake_committed := body.mistake_committed
        preliminary_investigation := body.preliminary_investigation = "true"
        details_and_findings := body.details_and_findings
        suggestions := body.suggestions
        status := "open"
        created_at := now
        updated_at := now }
    let newAtts :=
      (files.enum.filter (fun x => uploadOk x.1)).map
        (fun x => mkAttachment newId now x.2)
    ({ db with
        incidents := db.incidents ++ [inc]
        attachments := db.attachments ++ newAtts },
     .created inc)

/-! ## POST /:id/acknowledge (lines 175-229) -/

/-- The acknowledge request body.  `status` is optional; JavaScript
truthiness makes an empty-string status indistinguishable from an absent one
in both guards (lines 187 and 209). -/
structure AckBody where
  investigation_findings : String
  root_cause : String
  action_taken : String
  further_action_plan : String
  status : Option String
deriving Repr, DecidableEq

/-- JavaScript truthiness of the optional `status` body field. -/
def statusTruthy : Option String → Bool
  | none => false
  | some s => s ≠ ""

/-- Line 187 / line 236: `['open', 'in-progress', 'closed']`. -/
def validStatuses : List String := ["open", "in-progress", "closed"]

inductive AckResult
  | invalidStatus
  | ok (resp : IncidentResponse)
deriving Repr, DecidableEq

/-- HTTP status of the acknowledge response: 400 `Invalid status` or
200 `Incident acknowledged successfully`. -/
def AckResult.httpStatus : AckResult → Nat
  | .invalidStatus => 400
  | .ok _ => 200

/-- The acknowledge handler: validate the (truthy) status, insert a response
row stamped `acknowledged_by = req.user.id`, then — only when `status` is
truthy — update the incident's `status` and `updated_at`. -/
def acknowledgeIncident (db : Db) (p : Principal) (iid : Nat) (body : AckBody)
    (now : Nat) : Db × AckResult :=
  if statusTruthy body.status ∧ ¬ validStatuses.contains (body.status.getD "") then
    (db, .invalidStatus)
  else
    let resp : IncidentResponse :=
      { incident_id := iid
        investigation_findings := body.investigation_findings
        root_cause := body.root_cause
        action_taken := body.action_taken
        further_action_plan := body.further_action_plan
        acknowledged_by := p.id }
    let db1 := { db with responses := db.responses ++ [resp] }
    if statusTruthy body.status then
      ({ db1 with
          incidents := db1.incidents.map (fun inc =>
            if inc.id = iid then
              { inc with status := body.status.getD "", updated_at := now }
            else inc) },
       .ok resp)
    else (db1, .ok resp)

/-! ## PATCH /:id/status (lines 232-261) -/

inductive SetStatusResult
  | invalidStatus
  | ok (inc : Incident)
  | serverError
deriving Repr, DecidableEq

/-- HTTP status of the status-update response: 400 `Invalid status`,
200 `Incident status updated successfully`, or 500 when the post-update
`.single()` fetch fails (no row with that id). -/
def SetStatusResult.httpStatus : SetStatusResult → Nat
  | .invalidStatus => 400
  | .ok _ => 200
  | .serverError => 500

/-- The status-update handler: reject a status outside the three-value set
before touching the database, otherwise update `status` and `updated_at` of
the matching row and return it. -/
def setIncidentStatus (db : Db) (iid : Nat) (status : String)
    (now : Nat) : Db × SetStatusResult :=
  if ¬ validStatuses.contains status then (db, .invalidStatus)
  else
    let newIncidents := db.incidents.map (fun inc =>
      if inc.id = iid then { inc with status := status, updated_at := now }
      else inc)
    let db1 := { db with incidents := newIncidents }
    match newIncidents.find? (fun inc => inc.id = iid) with
    | none => (db1, .serverError)
    | some inc => (db1, .ok inc)

/-! ## DELETE /:id (lines 264-296) -/

/-- Observable external effects of the delete handler, in order. -/
inductive DeleteEvent
  | removeBlobs (paths : List String)
  | deleteRow (id : Nat)
deriving Repr, DecidableEq

inductive DeleteResult
  | ok
  | serverError
deriving Repr, DecidableEq

/-- HTTP status of the delete response: 200 `Incident deleted successfully`,
or 500 `Failed to delete incident` when the row deletion itself errors. -/
def DeleteResult.httpStatus : DeleteResult → Nat
  | .ok => 200
  | .serverError => 500

/-- The delete handler.  It selects the incident's attachment `file_url`s,
calls `storage.remove` on them (when there is at least one) and then deletes
the incident row, which cascades to attachment and response rows.
`blobRemoveOk` tells whether the blob removal succeeds; the source never
inspects the result of `remove`, so the parameter does not influence the
control flow — exactly mirroring the `await ... .remove(filePaths)` whose
return value is discarded.  `rowDeleteOk` tells whether the row deletion
succeeds; its error, unlike the blob one, is checked and thrown. -/
def deleteIncident (db : Db) (iid : Nat) (blobRemoveOk rowDeleteOk : Bool) :
    Db × List DeleteEvent × DeleteResult :=
  let atts := db.attachments.filter (fun a => a.incident_id = iid)
  let filePaths := atts.map (fun a => a.file_url)
  let evs : List DeleteEvent :=
    (if atts.length > 0 then [.removeBlobs filePaths] else []) ++
    [.deleteRow iid]
  if rowDeleteOk = false then (db, evs, .serverError)
  else
    let db1 : Db :=
      { incidents := db.incidents.filter (fun inc => inc.id ≠ iid)
        attachments := db.attachments.filter (fun a => a.incident_id ≠ iid)
        responses := db.responses.filter (fun r => r.incident_id ≠ iid) }
    (db1, evs, .ok)

/-! ## POST /api/auth/login (`src/unnamed/part_002` lines 181-231) -/

inductive LoginResult
  | invalidCredentials
  | accountDisabled
  | success (u : User)
deriving Repr, DecidableEq

/-- HTTP status of the login response: 401 `Invalid credentials`,
403 `Account is disabled`, or 200 with the token and user summary. -/
def LoginResult.httpStatus : LoginResult → Nat
  | .invalidCredentials => 401
  | .accountDisabled => 403
  | .success _ => 200

/-- The login handler.  `verifyPassword` stands for the `verify_password`
RPC; the returned boolean records whether that RPC was invoked.  The
disabled-account check on line 196 runs before any password verification. -/
def login (users : List User) (username password : String)
    (verifyPassword : String → String → Bool) : LoginResult × Bool :=
  match users.find? (fun u => u.username = username) with
  | none => (.invalidCredentials, false)
  | some u =>
    if u.is_active = false then (.accountDisabled, false)
    else if verifyPassword username password = false then
      (.invalidCredentials, true)
    else (.success u, true)

/-! ## Concrete fixtures used by witnesses and counterexamples -/

/-- A stored incident owned by user 7. -/
def exIncident : Incident :=
  { id := 1, user_id := 7, subject := "Slip near dock 3",
    date_of_incident := "2024-01-10", project_name := "",
    source_of_incident := "floor", mistake_committed := "wet floor unmarked",
    preliminary_investigation := false,
    details_and_findings := "no signage posted", suggestions := "",
    status := "open", created_at := 1, updated_at := 1 }

/-- A database holding just `exIncident`. -/
def exDb : Db := { incidents := [exIncident], attachments := [], responses := [] }

/-- `exDb` plus one attachment belonging to incident 1. -/
def exDbAtt : Db :=
  { exDb with attachments := [{ incident_id := 1, file_url := "1/5-a.png",
                                file_type := "image/png" }] }

/-- A superuser principal. -/
def exSuper : Principal := { id := 2, role := "superuser" }

/-- An admin principal. -/
def exAdmin : Principal := { id := 3, role := "admin" }

/-- A `user`-role principal distinct from incident 1's owner. -/
def exOtherUser : Principal := { id := 9, role := "user" }

/-- An acknowledge body carrying the empty string as its status. -/
def exAckEmptyStatus : AckBody :=
  { investigation_findings := "i", root_cause := "r", action_taken := "a",
    further_action_plan := "p", status := some "" }

/-- An acknowledge body with no status field. -/
def exAckNoStatus : AckBody :=
  { investigation_findings := "i", root_cause := "r", action_taken := "a",
    further_action_plan := "p", status := none }

/-- A fully valid create body. -/
def exCreateBody : CreateBody :=
  { subject := "Slip near dock 3", date_of_incident := "2024-01-10",
    project_name := "", source_of_incident := "floor",
    mistake_committed := "wet floor unmarked", preliminary_investigation := "",
    details_and_findings := "no signage posted", suggestions := "" }

/-! ## Theorems for the claims -/

/-- C1: for a `user`-role principal, create fails with the 400 validation
error and persists nothing when any of the five required fields is empty;
otherwise the persisted incident has `status = "open"` and
`user_id = principal.id`. -/
theorem create_validation_and_persistence
    (db : Db) (p : Principal) (body : CreateBody) (files : List UploadFile)
    (uploadOk : Nat → Bool) (newId now : Nat) (hrole : p.role = "user") :
    (missingRequired body = true →
      createIncident db p body files uploadOk newId now =
        (db, CreateResult.validationError)) ∧
    (missingRequired body = false →
      ∃ inc, (createIncident db p body files uploadOk newId now).2 =
          CreateResult.created inc ∧
        inc.status = "open" ∧ inc.user_id = p.id ∧
        inc ∈ (createIncident db p body files uploadOk newId now).1.incidents) := by
  have hauth : authorizeRoles ["user"] p = true := by
    simp [authorizeRoles, hrole]
  constructor
  · intro h
    simp [createIncident, hauth, h]
  · intro h
    refine ⟨{ id := newId, user_id := p.id, subject := body.subject,
              date_of_incident := body.date_of_incident,
              project_name := body.project_name,
              source_of_incident := body.source_of_incident,
              mistake_committed := body.mistake_committed,
              preliminary_investigation := body.preliminary_investigation = "true",
              details_and_findings := body.details_and_findings,
              suggestions := body.suggestions, status := "open",
              created_at := now, updated_at := now }, ?_, rfl, rfl, ?_⟩
    · simp [createIncident, hauth, h]
    · simp [createIncident, hauth, h]

/-- Witness for C1: both branches of the theorem evaluated on concrete
inputs — an empty subject is rejected, and the valid body yields an incident
with status `open` owned by the caller. -/
theorem create_validation_and_persistence_witness :
    (createIncident exDb ⟨7, "user"⟩ { exCreateBody with subject := "" } []
        (fun _ => true) 2 5 = (exDb, CreateResult.validationError)) ∧
    (∃ inc, (createIncident exDb ⟨7, "user"⟩ exCreateBody [] (fun _ => true)
          2 5).2 = CreateResult.created inc ∧
      inc.status = "open" ∧ inc.user_id = 7 ∧
      inc ∈ (createIncident exDb ⟨7, "user"⟩ exCreateBody [] (fun _ => true)
          2 5).1.incidents) := by
  have h := create_validation_and_persistence exDb ⟨7, "user"⟩ exCreateBody []
    (fun _ => true) 2 5 rfl
  have h' := create_validation_and_persistence exDb ⟨7, "user"⟩
    { exCreateBody with subject := "" } [] (fun _ => true) 2 5 rfl
  exact ⟨h'.1 (by decide), h.2 (by decide)⟩

/-- C8: the multer boundary is deterministic in MIME type and size: any file
whose declared type begins with neither `image/` nor `video/` is rejected
regardless of size, and any `image/png` file strictly under the 10 MiB limit
is accepted. -/
theorem upload_filter_deterministic :
    (∀ f : UploadFile, strStartsWith f.mimetype "image/" = false →
      strStartsWith f.mimetype "video/" = false → uploadAccepts f = false) ∧
    (∀ f : UploadFile, f.mimetype = "image/png" → f.size < 10 * 1024 * 1024 →
      uploadAccepts f = true) := by
  constructor
  · intro f h1 h2
    simp [uploadAccepts, fileFilterAccepts, h1, h2]
  · intro f h1 h2
    simp [uploadAccepts, fileFilterAccepts, h1, fileSizeLimit]
    exact ⟨Or.inl (by decide), Nat.le_of_lt h2⟩

/-- Witness for C8: a 1-byte PDF is rejected, a 1 MiB PNG is accepted. -/
theorem upload_filter_deterministic_witness :
    uploadAccepts ⟨"a.pdf", "application/pdf", 1⟩ = false ∧
    uploadAccepts ⟨"a.png", "image/png", 1048576⟩ = true :=
  ⟨upload_filter_deterministic.1 ⟨"a.pdf", "application/pdf", 1⟩
      (by decide) (by decide),
   upload_filter_deterministic.2 ⟨"a.png", "image/png", 1048576⟩ rfl
      (by decide)⟩

/-- C9: acknowledge without a status field appends exactly one response row
and leaves the whole incidents table — status and `updated_at` included —
unchanged (as well as the attachments table). -/
theorem acknowledge_without_status_frame
    (db : Db) (p : Principal) (iid : Nat) (body : AckBody) (now : Nat)
    (h : body.status = none) :
    acknowledgeIncident db p iid body now =
      ({ db with responses := db.responses ++
          [{ incident_id := iid
             investigation_findings := body.investigation_findings
             root_cause := body.root_cause
             action_taken := body.action_taken
             further_action_plan := body.further_action_plan
             acknowledged_by := p.id }] },
       AckResult.ok
         { incident_id := iid
           investigation_findings := body.investigation_findings
           root_cause := body.root_cause
           action_taken := body.action_taken
           further_action_plan := body.further_action_plan
           acknowledged_by := p.id }) := by
  simp [acknowledgeIncident, statusTruthy, h]

/-- Witness for C9: acknowledging incident 1 with no status leaves `exDb`'s
incident row untouched and appends the response. -/
theorem acknowledge_without_status_frame_witness :
    acknowledgeIncident exDb exSuper 1 exAckNoStatus 5 =
      ({ exDb with responses :=
          [{ incident_id := 1, investigation_findings := "i",
             root_cause := "r", action_taken := "a",
             further_action_plan := "p", acknowledged_by := 2 }] },
       AckResult.ok
         { incident_id := 1, investigation_findings := "i", root_cause := "r",
           action_taken := "a", further_action_plan := "p",
           acknowledged_by := 2 }) := by
  have h := acknowledge_without_status_frame exDb exSuper 1 exAckNoStatus 5 rfl
  simpa [exDb, exAckNoStatus, exSuper] using h

/-- C10: login for an existing account with `is_active = false` answers with
the disabled-account 403 and never invokes the password-verification RPC,
whatever the supplied password and whatever the RPC would answer. -/
theorem login_disabled_skips_password_verification
    (users : List User) (username password : String)
    (verifyPassword : String → String → Bool) (u : User)
    (hfind : users.find? (fun x => x.username = username) = some u)
    (hinactive : u.is_active = false) :
    login users username password verifyPassword =
      (LoginResult.accountDisabled, false) ∧
    (LoginResult.accountDisabled).httpStatus = 403 := by
  refine ⟨?_, rfl⟩
  simp [login, hfind, hinactive]

/-- Witness for C10: a concrete disabled account is refused with 403 and the
verifier — here one that would accept anything — is never consulted. -/
theorem login_disabled_skips_password_verification_witness :
    login [{ id := 4, username := "bob", role := "user", department := "d",
             is_active := false }] "bob" "hunter2" (fun _ _ => true) =
      (LoginResult.accountDisabled, false) :=
  (login_disabled_skips_password_verification
    [{ id := 4, username := "bob", role := "user", department := "d",
       is_active := false }] "bob" "hunter2" (fun _ _ => true)
    { id := 4, username := "bob", role := "user", department := "d",
      is_active := false }
    (by decide) rfl).1

/-- C2 counterexample: the empty string is a status value outside
{open, in-progress, closed}, yet Acknowledge supplied with it does not fail
with the 400 validation error — JavaScript truthiness lets `status && ...`
skip the check, the handler inserts a response and answers 200. -/
theorem acknowledge_empty_status_not_rejected :
    validStatuses.contains "" = false ∧
    (acknowledgeIncident exDb exSuper 1 exAckEmptyStatus 5).2 ≠
      AckResult.invalidStatus ∧
    ((acknowledgeIncident exDb exSuper 1 exAckEmptyStatus 5).2).httpStatus =
      200 := by
  decide

/-- C2 amended: a status outside {open, in-progress, closed} makes SetStatus
fail with the 400 validation error and leaves the database untouched;
Acknowledge does the same for every supplied non-empty such status, while a
supplied empty-string status is treated as absent — no validation error, and
the stored incidents (their status in particular) are unchanged. -/
theorem invalid_status_rejected
    (db : Db) (p : Principal) (iid : Nat) (body : AckBody) (now : Nat)
    (s : String) (hs : validStatuses.contains s = false) :
    (setIncidentStatus db iid s now = (db, SetStatusResult.invalidStatus)) ∧
    (s ≠ "" → body.status = some s →
      acknowledgeIncident db p iid body now = (db, AckResult.invalidStatus)) ∧
    (body.status = some "" →
      (acknowledgeIncident db p iid body now).1.incidents = db.incidents ∧
      (acknowledgeIncident db p iid body now).2 ≠ AckResult.invalidStatus) := by
  have hs' : ¬ s ∈ validStatuses := by simpa using hs
  refine ⟨?_, ?_, ?_⟩
  · simp [setIncidentStatus, hs']
  · intro hne hbody
    simp [acknowledgeIncident, statusTruthy, hbody, hne, hs']
  · intro hbody
    constructor
    · simp [acknowledgeIncident, statusTruthy, hbody]
    · simp [acknowledgeIncident, statusTruthy, hbody]

/-- Witness for the amended C2: the status string `resolved` is rejected by
both endpoints with the database unchanged, and an empty-string status
supplied to Acknowledge leaves the incident rows unchanged. -/
theorem invalid_status_rejected_witness :
    setIncidentStatus exDb 1 "resolved" 5 =
      (exDb, SetStatusResult.invalidStatus) ∧
    acknowledgeIncident exDb exSuper 1
        { exAckEmptyStatus with status := some "resolved" } 5 =
      (exDb, AckResult.invalidStatus) ∧
    (acknowledgeIncident exDb exSuper 1 exAckEmptyStatus 5).1.incidents =
      exDb.incidents :=
  ⟨(invalid_status_rejected exDb exSuper 1 exAckEmptyStatus 5 "resolved"
      (by decide)).1,
   (invalid_status_rejected exDb exSuper 1
      { exAckEmptyStatus with status := some "resolved" } 5 "resolved"
      (by decide)).2.1 (by decide) rfl,
   ((invalid_status_rejected exDb exSuper 1 exAckEmptyStatus 5 "resolved"
      (by decide)).2.2 rfl).1⟩

/-- C3: for a `user`-role principal the list endpoint returns exactly the
stored incidents with that principal's `user_id`; for an admin or superuser
it returns all stored incidents, ordered by descending `created_at`. -/
theorem listIncidents_scoped (db : Db) (p : Principal) :
    (p.role = "user" →
      (listIncidents db p).Perm
        (db.incidents.filter (fun inc => inc.user_id = p.id))) ∧
    (p.role = "admin" ∨ p.role = "superuser" →
      (listIncidents db p).Perm db.incidents ∧
      (listIncidents db p).Pairwise
        (fun a b => b.created_at ≤ a.created_at)) := by
  have hperm : (sortNewestFirst db.incidents).Perm db.incidents :=
    List.mergeSort_perm db.incidents _
  have hsorted : (sortNewestFirst db.incidents).Pairwise
      (fun a b => b.created_at ≤ a.created_at) := by
    have h := @List.sorted_mergeSort Incident
      (fun a b => decide (b.created_at ≤ a.created_at))
      (fun a b c hab hbc => by simp_all; omega)
      (fun a b => by simp; omega)
      db.incidents
    exact h.imp (fun hx => by simpa using hx)
  refine ⟨?_, ?_⟩
  · intro h
    simp only [listIncidents, h, if_pos]
    exact hperm.filter _
  · intro h
    have hne : ¬ p.role = "user" := by
      rcases h with h | h <;> simp [h]
    simp only [listIncidents, hne, if_neg, not_false_iff]
    exact ⟨hperm, hsorted⟩

/-- Witness for C3: on the concrete store, the owner sees exactly their
incidents and an admin sees the full set. -/
theorem listIncidents_scoped_witness :
    (listIncidents exDb ⟨7, "user"⟩).Perm
      (exDb.incidents.filter (fun inc => inc.user_id = 7)) ∧
    (listIncidents exDb exAdmin).Perm exDb.incidents :=
  ⟨(listIncidents_scoped exDb ⟨7, "user"⟩).1 rfl,
   ((listIncidents_scoped exDb exAdmin).2 (Or.inl rfl)).1⟩

/-- C4: a `user`-role principal fetching an existing incident they do not
own gets the 403 access-denied response, which carries no incident body. -/
theorem getIncident_forbidden_for_non_owner
    (db : Db) (p : Principal) (iid : Nat) (inc : Incident)
    (hrole : p.role = "user")
    (hfind : db.incidents.find? (fun i => i.id = iid) = some inc)
    (hown : inc.user_id ≠ p.id) :
    getIncident db p iid = GetIncidentResult.accessDenied ∧
    GetIncidentResult.accessDenied.httpStatus = 403 := by
  refine ⟨?_, rfl⟩
  simp [getIncident, hfind, hrole, hown]

/-- Witness for C4: the `user`-role principal 9 is denied incident 1, which
belongs to user 7. -/
theorem getIncident_forbidden_for_non_owner_witness :
    getIncident exDb exOtherUser 1 = GetIncidentResult.accessDenied :=
  (getIncident_forbidden_for_non_owner exDb exOtherUser 1 exIncident rfl
    (by decide) (by decide)).1

/-- C5, code behaviour at the failing input: fetching an id with no stored
incident — an empty store, or the store right after the admin deleted
incident 1 — answers 500 (the failed `.single()` is thrown and caught by the
generic handler), not the 404 the claim states. -/
theorem getIncident_missing_yields_500 :
    (getIncident { incidents := [], attachments := [], responses := [] }
        exAdmin 1).httpStatus = 500 ∧
    (getIncident (deleteIncident exDb 1 true true).1 exAdmin 1).httpStatus =
      500 ∧
    (getIncident (deleteIncident exDb 1 true true).1 exOtherUser 1).httpStatus
      = 500 := by
  decide

/-- C6 counterexample: with one stored attachment and a failing blob
removal, the delete handler still answers the 200 success message and its
whole outcome is identical to the run where blob removal succeeds — the
failure is not reported to the caller. -/
theorem delete_blob_failure_silently_swallowed :
    (deleteIncident exDbAtt 1 false true).2.2 = DeleteResult.ok ∧
    deleteIncident exDbAtt 1 false true = deleteIncident exDbAtt 1 true true
    := by
  decide

/-- C6 amended: blob removal of all the incident's attachment references is
attempted before the row deletion, and on a failing blob removal the row
deletion is still attempted — but the failure is silently swallowed: when
the row deletion succeeds the caller receives the 200 success response
regardless of the blob outcome. -/
theorem delete_blob_order_and_row_attempt
    (db : Db) (iid : Nat) (blobOk rowOk : Bool)
    (hatts : db.attachments.filter (fun a => a.incident_id = iid) ≠ []) :
    (deleteIncident db iid blobOk rowOk).2.1 =
      [DeleteEvent.removeBlobs
        ((db.attachments.filter (fun a => a.incident_id = iid)).map
          (fun a => a.file_url)),
       DeleteEvent.deleteRow iid] ∧
    (rowOk = true →
      (deleteIncident db iid false rowOk).2.2 = DeleteResult.ok) := by
  have hlen : db.attachments.filter (fun a => a.incident_id = iid) ≠ [] :=
    hatts
  constructor
  · cases rowOk <;>
      simp [deleteIncident, List.length_pos.mpr hlen]
  · intro hrow
    subst hrow
    simp [deleteIncident]

/-- Witness for the amended C6: on the store with one attachment, a failing
blob removal is followed by the row deletion and the 200 success answer. -/
theorem delete_blob_order_and_row_attempt_witness :
    (deleteIncident exDbAtt 1 false true).2.1 =
      [DeleteEvent.removeBlobs ["1/5-a.png"], DeleteEvent.deleteRow 1] ∧
    (deleteIncident exDbAtt 1 false true).2.2 = DeleteResult.ok := by
  have h := delete_blob_order_and_row_attempt exDbAtt 1 false true (by decide)
  exact ⟨by simpa [exDbAtt, exDb] using h.1, h.2 rfl⟩

/-- C7: once the required fields validate, every pattern of per-file storage
failures still yields the 201 response with the created incident persisted,
and exactly the successfully stored files produce attachment rows — failed
files are skipped, nothing else. -/
theorem create_partial_attachment_success
    (db : Db) (p : Principal) (body : CreateBody) (files : List UploadFile)
    (uploadOk : Nat → Bool) (newId now : Nat)
    (hrole : p.role = "user") (hval : missingRequired body = false) :
    ((createIncident db p body files uploadOk newId now).2).httpStatus =
      201 ∧
    (∃ inc, (createIncident db p body files uploadOk newId now).2 =
        CreateResult.created inc ∧
      inc ∈ (createIncident db p body files uploadOk newId now).1.incidents) ∧
    (createIncident db p body files uploadOk newId now).1.attachments =
      db.attachments ++
        (files.enum.filter (fun x => uploadOk x.1)).map
          (fun x => mkAttachment newId now x.2) := by
  have hauth : authorizeRoles ["user"] p = true := by
    simp [authorizeRoles, hrole]
  refine ⟨?_, ?_, ?_⟩
  · simp [createIncident, hauth, hval, CreateResult.httpStatus]
  · refine ⟨{ id := newId, user_id := p.id, subject := body.subject,
              date_of_incident := body.date_of_incident,
              project_name := body.project_name,
              source_of_incident := body.source_of_incident,
              mistake_committed := body.mistake_committed,
              preliminary_investigation := body.preliminary_investigation = "true",
              details_and_findings := body.details_and_findings,
              suggestions := body.suggestions, status := "open",
              created_at := now, updated_at := now }, ?_, ?_⟩ <;>
      simp [createIncident, hauth, hval]
  · simp [createIncident, hauth, hval]

/-- Witness for C7: two image files, the second one failing to store — the
incident is still created with 201 and only the first file's attachment row
is persisted. -/
theorem create_partial_attachment_success_witness :
    ((createIncident exDb ⟨7, "user"⟩ exCreateBody
        [⟨"a.png", "image/png", 5⟩, ⟨"b.png", "image/png", 6⟩]
        (fun i => i = 0) 2 5).2).httpStatus = 201 ∧
    (createIncident exDb ⟨7, "user"⟩ exCreateBody
        [⟨"a.png", "image/png", 5⟩, ⟨"b.png", "image/png", 6⟩]
        (fun i => i = 0) 2 5).1.attachments =
      [mkAttachment 2 5 ⟨"a.png", "image/png", 5⟩] := by
  have h := create_partial_attachment_success exDb ⟨7, "user"⟩ exCreateBody
    [⟨"a.png", "image/png", 5⟩, ⟨"b.png", "image/png", 6⟩]
    (fun i => i = 0) 2 5 rfl (by decide)
  refine ⟨h.1, ?_⟩
  have h2 := h.2.2
  simpa [exDb, List.enum] using h2

end Panache
